import Mathlib

/-!
# Verification development for the `gaser` fuel-station query backend

This file gives a shallow embedding, in Lean 4, of the core data model and
algorithms of the repository:

* `src/backend/app.py` — the query engine over the published data snapshot
  (radius queries via R-tree and grid, attribute-filter queries, batch
  radius queries, text queries, and the HTTP parameter clamping);
* `src/scripts/otimizador_dados.py` — the index build pipeline
  (`validar_dados`, `criar_grid_index`, `criar_rtree_index`, `otimizar_json`);
* `src/scripts/scraper_multiplas_fontes.py` — the deduplication / merge
  pipeline (`deduplicar_por_proximidade`, `mesclar_postos_similares`).

Modelling conventions:

* Python floats are embedded as `ℚ`.  The only operations the algorithms
  perform on coordinates and prices are field arithmetic, comparisons,
  truncation (`int(...)`), `math.ceil`, and `round(x, 2)`, all of which are
  exact on `ℚ`.
* The one exception is `calcular_distancia` (the haversine formula) and the
  `math.cos` factor in the R-tree bounding box: these use transcendental
  floating-point functions with no exact rational embedding.  The query
  engine is therefore *parametric* in a distance function `dist` and a
  degree-cosine function `cosDeg`; general theorems hold for every choice,
  and concrete test scenarios instantiate them with computable stand-ins
  (`distTaxi`, `cosDegOne`) whose relevant order/threshold facts agree with
  the true haversine values at the scenario points (the scenario points are
  far from the radius thresholds, and all scenario query points sit on the
  equator where `cos(radians(0)) = 1` exactly).
* Python dicts are embedded as association lists preserving key insertion
  order (CPython dicts iterate in insertion order); `dict.get` is
  `List.lookup`.
* A Python dict field that can be absent, `None`, or a number is embedded
  as the three-constructor type `Preco`.
* `int(x)` on a float truncates toward zero: `pyInt`.
* Python's `str.upper()` (ASCII range, which is all the data uses) is
  `pyUpper`; Python's lexicographic string `<=` on code points is `pyStrLe`.
* `round(x, 2)` uses round-half-to-even: `round2`.
* Mutation of the shared in-process cache by the queries (the source sets
  `posto['distancia']` on records held in `postos_por_id`, and sorts the
  aliased `postos` list in place) is embedded by state passing: each query
  returns its result *and* the snapshot state after the call.
-/

attribute [local semireducible] Rat.add Rat.mul Rat.sub Rat.inv

/-- Python `int(q)` on a float/rational: truncation toward zero. -/
def pyInt (q : ℚ) : ℤ := q.num.tdiv q.den

/-- Floor of a rational, computable (`⌊q⌋`). -/
def ratFloor (q : ℚ) : ℤ := q.num.fdiv q.den

/-- Ceiling of a rational, computable (`math.ceil`). -/
def ratCeil (q : ℚ) : ℤ := -ratFloor (-q)

/-- Round a rational to the nearest integer, halves to even
(the float rounding mode used by Python `round`). -/
def roundHalfEven (q : ℚ) : ℤ :=
  let f : ℤ := ratFloor q
  let r : ℚ := q - (f : ℚ)
  if r < 1/2 then f
  else if (1:ℚ)/2 < r then f + 1
  else if 2 ∣ f then f else f + 1

/-- Python `round(q, 2)`: round to two decimal places, halves to even. -/
def round2 (q : ℚ) : ℚ := (roundHalfEven (q * 100) : ℚ) / 100

/-- Python `Char.upper` for the ASCII range (all data in this system is
ASCII state codes / names). -/
def pyCharUpper (c : Char) : Char :=
  if 'a' ≤ c ∧ c ≤ 'z' then Char.ofNat (c.toNat - 32) else c

/-- Python `str.upper()` (ASCII range). -/
def pyUpper (s : String) : String := String.mk (s.data.map pyCharUpper)

/-- Lexicographic code-point comparison on character lists
(Python string `<=`). -/
def strLeAux : List Char → List Char → Bool
  | [], _ => true
  | _ :: _, [] => false
  | a :: as, b :: bs => if a < b then true else if b < a then false else strLeAux as bs

/-- Python string `<=` (lexicographic on code points). -/
def pyStrLe (a b : String) : Bool := strLeAux a.data b.data

/-- A price field of a record in the optimized JSON: the dict key can be
absent, present with value `None` (JSON `null`), or present with a number
(`validar_dados` normalizes every price to a float or `None`). -/
inductive Preco where
  | ausente : Preco
  | nulo : Preco
  | disponivel : ℚ → Preco
deriving DecidableEq, Repr

/-- A station record as served by the backend (`postos_latest.json` schema
produced by `otimizador_dados.validar_dados` / `otimizar_json`). -/
structure Posto where
  id : String
  nome : String
  endereco : String
  bairro : String
  cidade : String
  estado : String
  bandeira : String
  latitude : ℚ
  longitude : ℚ
  precoGasolina : Preco
  precoAlcool : Preco
  precoDiesel : Preco
  precoGnv : Preco
  /-- The `distancia` key is absent until a proximity query writes it. -/
  distancia : Option ℚ
deriving DecidableEq, Repr

/-- The loaded `dados_json` bundle: the record list plus the lookup maps,
in key insertion order (`otimizar_json`).  After the JSON round trip the
records in `postos` and the records in `postos_por_id` are distinct
objects, so they are embedded as independent copies. -/
structure Dados where
  postos : List Posto
  postosPorId : List (String × Posto)
  postosPorEstado : List (String × List String)
  postosPorCidade : List (String × List String)
  postosPorBandeira : List (String × List String)
deriving DecidableEq, Repr

/-- The pickled grid index bundle (`criar_grid_index`). -/
structure GridIndexData where
  grid : List ((ℤ × ℤ) × List String)
  tamanhoCelula : ℚ
  postosIds : List (String × (ℚ × ℚ))
deriving DecidableEq, Repr

/-- The R-tree index: degenerate boxes `(lon, lat)` tagged with the record
id, kept in insertion order (`criar_rtree_index` inserts `self.postos` in
order; the library's intersection enumeration order is unspecified and is
modelled as insertion order). -/
def RtreeIndex : Type := List (ℚ × ℚ × String)

/-- The haversine `calcular_distancia` is a transcendental floating-point
computation; the engine is parametric in it. -/
def DistFn : Type := ℚ → ℚ → ℚ → ℚ → ℚ

/-- Computable stand-in distance for concrete scenario instances: a
rectilinear degree metric scaled by 111 km/degree.  It agrees with the true
haversine on every fact a concrete theorem below uses: it is `0` for
coincident points, strictly monotone in the per-axis offsets, and on the
scenario inputs it is on the same side of every radius threshold as the
haversine value (the scenario distances are far from the thresholds). -/
def distTaxi : DistFn := fun lat1 lon1 lat2 lon2 =>
  111 * (|lat2 - lat1| + |lon2 - lon1|)

/-- Stand-in for `math.cos(math.radians(lat))` used by concrete instances;
every concrete query below is at latitude `0`, where the true value is
exactly `1`. -/
def cosDegOne : ℚ → ℚ := fun _ => 1

/-- `otimizador_dados.criar_rtree_index`: insert each record as a
zero-area box `(lon, lat, lon, lat)` tagged with its id, in list order. -/
def criar_rtree_index (postos : List Posto) : RtreeIndex :=
  postos.map (fun p => (p.longitude, p.latitude, p.id))

/-- Append a value to a grid cell's bucket, creating the bucket at the end
of the dict (insertion order) if the key is new — the
`if grid_key not in grid: grid[grid_key] = []` / `append` pattern. -/
def gridAppend {α : Type} (g : List ((ℤ × ℤ) × List α)) (k : ℤ × ℤ) (v : α) :
    List ((ℤ × ℤ) × List α) :=
  if (g.lookup k).isSome then
    g.map (fun kv => if kv.1 = k then (kv.1, kv.2 ++ [v]) else kv)
  else
    g ++ [(k, [v])]

/-- `otimizador_dados.criar_grid_index`: bucket each record id under the
cell key `(int(lat/tamanho_celula), int(lon/tamanho_celula))`, and record
the id → coordinate map. -/
def criar_grid_index (postos : List Posto) (tamanho_celula : ℚ) : GridIndexData :=
  { grid := postos.foldl
      (fun g p =>
        gridAppend g (pyInt (p.latitude / tamanho_celula), pyInt (p.longitude / tamanho_celula)) p.id)
      []
    tamanhoCelula := tamanho_celula
    postosIds := postos.map (fun p => (p.id, (p.latitude, p.longitude))) }

/-! ## Query engine (`src/backend/app.py`) -/

/-- Closed-box intersection test of the query bounding box
`(minx, miny, maxx, maxy)` with the degenerate box at `(x, y)` —
`rtree .intersection` semantics (touching boxes intersect). -/
def inBbox (bbox : ℚ × ℚ × ℚ × ℚ) (x y : ℚ) : Bool :=
  decide (bbox.1 ≤ x) && decide (x ≤ bbox.2.2.1) &&
  decide (bbox.2.1 ≤ y) && decide (y ≤ bbox.2.2.2)

/-- Sort key used by the proximity queries: `x['distancia']`, which every
collected record has just been assigned (default `0` is never read). -/
def distanciaKey (p : Posto) : ℚ := p.distancia.getD 0

/-- Ascending stable sort by `distancia`
(`postos_proximos.sort(key=lambda x: x['distancia'])`). -/
def sortPorDistancia (l : List Posto) : List Posto :=
  List.insertionSort (fun a b => distanciaKey a ≤ distanciaKey b) l

/-- Replace the record stored under `posto_id` in the `postos_por_id` map —
the in-place mutation `posto['distancia'] = round(dist, 2)` seen through
the shared dict. -/
def atualizarPorId (m : List (String × Posto)) (pid : String) (novo : Posto) :
    List (String × Posto) :=
  m.map (fun kv => if kv.1 = pid then (kv.1, novo) else kv)

/-- One step of the candidate loop of `buscar_postos_proximidade_rtree`:
look the id up in `postos_por_id`; if found and within the exact radius,
set its `distancia` (mutating the shared map) and collect it. -/
def coletarCandidato (dist : DistFn) (lat lon raio_km : ℚ)
    (acc : Dados × List Posto) (pid : String) : Dados × List Posto :=
  match (acc.1.postosPorId.lookup pid) with
  | none => acc
  | some posto =>
    let d := dist lat lon posto.latitude posto.longitude
    if d ≤ raio_km then
      let posto' := { posto with distancia := some (round2 d) }
      ({ acc.1 with postosPorId := atualizarPorId acc.1.postosPorId pid posto' },
       acc.2 ++ [posto'])
    else acc

/-- `app.buscar_postos_proximidade_rtree`: build a degree bounding box
from the radius, probe the R-tree, truncate the candidate list to
`limite`, filter candidates by exact distance (setting `distancia` on the
shared records), and sort ascending by the rounded distance.  Returns the
result list and the snapshot state after the call. -/
def buscar_postos_proximidade_rtree (dist : DistFn) (cosDeg : ℚ → ℚ)
    (dados : Dados) (rtreeIndex : Option RtreeIndex)
    (lat lon raio_km : ℚ) (limite : ℕ) : List Posto × Dados :=
  match rtreeIndex with
  | none => ([], dados)
  | some entries =>
    let raio_lat := raio_km / 111
    let raio_lon := raio_km / (111 * cosDeg lat)
    let bbox := (lon - raio_lon, lat - raio_lat, lon + raio_lon, lat + raio_lat)
    let ids_proximos := (entries.filter (fun e => inBbox bbox e.1 e.2.1)).map (fun e => e.2.2)
    let ids_proximos := ids_proximos.take limite
    let passo := ids_proximos.foldl (coletarCandidato dist lat lon raio_km) (dados, [])
    (sortPorDistancia passo.2, passo.1)

/-- The square of grid cells scanned by the grid query: offsets
`-num_celulas .. num_celulas` in each axis, row-major as in the Python
nested loops. -/
def celulasVizinhas (centro : ℤ × ℤ) (num_celulas : ℕ) : List (ℤ × ℤ) :=
  (List.range (2 * num_celulas + 1)).flatMap (fun i =>
    (List.range (2 * num_celulas + 1)).map (fun j =>
      (centro.1 + (i : ℤ) - (num_celulas : ℤ), centro.2 + (j : ℤ) - (num_celulas : ℤ))))

/-- Inner loop of `buscar_postos_proximidade_grid` over the ids of one
cell: read the coordinates from `postos_ids` (default `(0, 0)`), keep the
record if within the exact radius, setting `distancia` on the shared
`postos_por_id` record. -/
def coletarCandidatoGrid (dist : DistFn) (gi : GridIndexData) (lat lon raio_km : ℚ)
    (acc : Dados × List Posto) (pid : String) : Dados × List Posto :=
  let coords := (gi.postosIds.lookup pid).getD (0, 0)
  let d := dist lat lon coords.1 coords.2
  if d ≤ raio_km then
    match (acc.1.postosPorId.lookup pid) with
    | none => acc
    | some posto =>
      let posto' := { posto with distancia := some (round2 d) }
      ({ acc.1 with postosPorId := atualizarPorId acc.1.postosPorId pid posto' },
       acc.2 ++ [posto'])
  else acc

/-- `app.buscar_postos_proximidade_grid`: scan the grid cells within
`ceil(raio_graus / tamanho_celula) + 1` cells of the centre cell, test
every bucketed id by exact distance, sort ascending, truncate to
`limite`. -/
def buscar_postos_proximidade_grid (dist : DistFn) (dados : Dados)
    (gridIndex : Option GridIndexData) (lat lon raio_km : ℚ) (limite : ℕ) :
    List Posto × Dados :=
  match gridIndex with
  | none => ([], dados)
  | some gi =>
    let raio_graus := raio_km / 111
    let centro := (pyInt (lat / gi.tamanhoCelula), pyInt (lon / gi.tamanhoCelula))
    let num_celulas := (ratCeil (raio_graus / gi.tamanhoCelula)).toNat + 1
    let passo := (celulasVizinhas centro num_celulas).foldl
      (fun acc chave =>
        match gi.grid.lookup chave with
        | none => acc
        | some ids_celula => ids_celula.foldl (coletarCandidatoGrid dist gi lat lon raio_km) acc)
      (dados, [])
    ((sortPorDistancia passo.2).take limite, passo.1)

/-- The filter dict assembled by `api_postos_filtros`: every value is an
optional request parameter (`None` when missing; an empty string is falsy
and is folded into `none`, matching the `if filtros[...]` truthiness
checks on strings; prices are the parsed `float(...)` values). -/
structure Filtros where
  estado : Option String
  cidade : Option String
  bandeira : Option String
  precoMaxGasolina : Option ℚ
  precoMaxAlcool : Option ℚ
  precoMaxDiesel : Option ℚ
  ordenarPor : Option String
deriving DecidableEq, Repr

/-- Python truthiness of an optional string (`None` and `""` are falsy). -/
def truthy : Option String → Bool
  | none => false
  | some s => s != ""

/-- `p.get('preco_<f>') is not None and float(p['preco_<f>']) <= preco_max`. -/
def precoAteMax (v : Preco) (preco_max : ℚ) : Bool :=
  match v with
  | .ausente => false
  | .nulo => false
  | .disponivel q => decide (q ≤ preco_max)

/-- The sort key `float(x.get('preco_<f>', 999999))`: an absent key uses
the sentinel; a present numeric value is itself; a present `None` raises
`TypeError` (`float(None)`), modelled as `none`. -/
def chaveOrdenacao (v : Preco) : Option ℚ :=
  match v with
  | .ausente => some 999999
  | .nulo => none
  | .disponivel q => some q

/-- Total version of the sort key used inside the comparison relation; it
is only ever consulted when no key evaluation raised. -/
def chaveOrdenacaoTotal (v : Preco) : ℚ := (chaveOrdenacao v).getD 0

/-- `list.sort(key=...)` with a raising key function: CPython decorates
(computes every key first) and only then reorders, so if any key raises
the call raises with the list unchanged; otherwise the sort is stable
ascending by key.  `none` models the `TypeError` propagating out of
`buscar_postos_filtros`. -/
def pySortByPreco (campo : Posto → Preco) (l : List Posto) : Option (List Posto) :=
  if l.all (fun p => (chaveOrdenacao (campo p)).isSome) then
    some (List.insertionSort
      (fun a b => chaveOrdenacaoTotal (campo a) ≤ chaveOrdenacaoTotal (campo b)) l)
  else none

/-- `app.buscar_postos_filtros`: AND-combine the provided filters (state
uppercased before the `postos_por_estado` lookup; city and brand looked up
verbatim; per-fuel max price inclusive, excluding records whose price is
`None` or absent), then optionally sort by a named price field, then
truncate to `limite`.  `postos_filtrados` starts as an alias of the
snapshot's own list, so when no filter rebuilt the list the in-place
`sort` reorders the snapshot's `postos`; the returned `Dados` is the
snapshot state after the call.  `none` models the `TypeError` raised by
`float(None)` when sorting reaches a record whose price field is `null`. -/
def buscar_postos_filtros (dados : Dados) (filtros : Filtros) (limite : ℕ) :
    Option (List Posto × Dados) :=
  let pf0 := dados.postos
  -- estado filter (uppercased lookup)
  let pf1 := if truthy filtros.estado then
      let ids := (dados.postosPorEstado.lookup (pyUpper ((filtros.estado).getD ""))).getD []
      pf0.filter (fun p => ids.contains p.id)
    else pf0
  let pf2 := if truthy filtros.cidade then
      let ids := (dados.postosPorCidade.lookup ((filtros.cidade).getD "")).getD []
      pf1.filter (fun p => ids.contains p.id)
    else pf1
  let pf3 := if truthy filtros.bandeira then
      let ids := (dados.postosPorBandeira.lookup ((filtros.bandeira).getD "")).getD []
      pf2.filter (fun p => ids.contains p.id)
    else pf2
  let pf4 := match filtros.precoMaxGasolina with
    | some m => pf3.filter (fun p => precoAteMax p.precoGasolina m)
    | none => pf3
  let pf5 := match filtros.precoMaxAlcool with
    | some m => pf4.filter (fun p => precoAteMax p.precoAlcool m)
    | none => pf4
  let pf6 := match filtros.precoMaxDiesel with
    | some m => pf5.filter (fun p => precoAteMax p.precoDiesel m)
    | none => pf5
  -- does `postos_filtrados` still alias the snapshot's list?
  let aliased := !(truthy filtros.estado || truthy filtros.cidade || truthy filtros.bandeira ||
      (filtros.precoMaxGasolina).isSome || (filtros.precoMaxAlcool).isSome ||
      (filtros.precoMaxDiesel).isSome)
  let ordenado : Option (Option (List Posto)) := match filtros.ordenarPor with
    | some s =>
      if s == "preco_gasolina" then some (pySortByPreco (fun p => p.precoGasolina) pf6)
      else if s == "preco_alcool" then some (pySortByPreco (fun p => p.precoAlcool) pf6)
      else if s == "preco_diesel" then some (pySortByPreco (fun p => p.precoDiesel) pf6)
      else none
    | none => none
  match ordenado with
  | none => some (pf6.take limite, dados)
  | some none => none
  | some (some pfOrd) =>
    some (pfOrd.take limite,
      if aliased then { dados with postos := pfOrd } else dados)

/-- `app.buscar_postos_lote`: submit one R-tree query task per input point
that has both `lat` and `lon` present; a point with a missing coordinate
is never submitted, hence never keyed in the result dict.  Results are
keyed by input index.  (The source runs the tasks in a thread pool over
the same shared cache; each task is embedded as reading the snapshot state
at entry, which is the per-task semantics the result-map claims are
about.) -/
def buscar_postos_lote_aux (dist : DistFn) (cosDeg : ℚ → ℚ) (dados : Dados)
    (rtreeIndex : Option RtreeIndex) (raio_km : ℚ) (limite_por_ponto : ℕ) :
    ℕ → List (Option ℚ × Option ℚ) → List (ℕ × List Posto)
  | _, [] => []
  | i, (some la, some lo) :: resto =>
    (i, (buscar_postos_proximidade_rtree dist cosDeg dados rtreeIndex la lo raio_km
      limite_por_ponto).1) ::
      buscar_postos_lote_aux dist cosDeg dados rtreeIndex raio_km limite_por_ponto
        (i + 1) resto
  | i, _ :: resto =>
    buscar_postos_lote_aux dist cosDeg dados rtreeIndex raio_km limite_por_ponto
      (i + 1) resto

/-- Entry point of `buscar_postos_lote`: enumerate from index `0`. -/
def buscar_postos_lote (dist : DistFn) (cosDeg : ℚ → ℚ) (dados : Dados)
    (rtreeIndex : Option RtreeIndex) (pontos : List (Option ℚ × Option ℚ))
    (raio_km : ℚ) (limite_por_ponto : ℕ) : List (ℕ × List Posto) :=
  buscar_postos_lote_aux dist cosDeg dados rtreeIndex raio_km limite_por_ponto 0 pontos

/-- The radius/limit adjustment in the `/api/postos/proximos` route:
`raio = min(raio, 50.0)`, `limite = min(limite, 100)`. -/
def api_postos_proximos_clamp (raio : ℚ) (limite : ℤ) : ℚ × ℤ :=
  (min raio 50, min limite 100)

/-- Substring test `texto in s.lower()` of the text query.  Lowercasing is
the ASCII counterpart of `pyUpper`. -/
def pyCharLower (c : Char) : Char :=
  if 'A' ≤ c ∧ c ≤ 'Z' then Char.ofNat (c.toNat + 32) else c

/-- Python `str.lower()` (ASCII range). -/
def pyLower (s : String) : String := String.mk (s.data.map pyCharLower)

/-- Does the second list start with the first? -/
def comecaCom : List Char → List Char → Bool
  | [], _ => true
  | _ :: _, [] => false
  | a :: as, b :: bs => a == b && comecaCom as bs

/-- Contiguous-sublist test on character lists. -/
def contemSub (agulha : List Char) : List Char → Bool
  | [] => agulha.isEmpty
  | c :: resto => comecaCom agulha (c :: resto) || contemSub agulha resto

/-- `texto in campo.lower()` — substring containment on code points. -/
def contemTexto (texto campo : String) : Bool :=
  contemSub texto.data (pyLower campo).data

/-- The matching loop of `/api/postos/busca`: records whose name, address,
neighbourhood or city contains the lowercased query, in snapshot order,
stopping after `limite` matches.  It performs no writes: the snapshot is
returned untouched. -/
def api_postos_busca (dados : Dados) (texto : String) (limite : ℕ) :
    List Posto × Dados :=
  let correspondentes := (dados.postos.filter (fun p =>
    contemTexto texto p.nome || contemTexto texto p.endereco ||
    contemTexto texto p.bairro || contemTexto texto p.cidade)).take limite
  (correspondentes, dados)

/-! ## Deduplication / merge pipeline (`src/scripts/scraper_multiplas_fontes.py`) -/

/-- A raw scraped field value as seen by the merge code: the dict key can
be absent, `None`, a string, or a number.  The merge's unavailability
sentinel list is `[None, '', 'N/A']` and an absent key reads as `None`. -/
inductive RawVal where
  | faltando : RawVal
  | pynone : RawVal
  | pystr : String → RawVal
  | pynum : ℚ → RawVal
deriving DecidableEq, Repr, Inhabited

/-- `posto.get(campo) in [None, '', 'N/A']` (an absent key reads `None`). -/
def indisponivel (v : RawVal) : Bool :=
  v == .faltando || v == .pynone || v == .pystr "" || v == .pystr "N/A"

/-- A raw pooled record at the deduplication stage (before
`validar_dados`).  `dataColeta` and `fonte` model `posto.get(...)` with
their string defaults; `fontes` is the `merged_sources` key, absent until
a merge writes it. -/
structure RawPosto where
  nome : String
  latitude : ℚ
  longitude : ℚ
  precoGasolina : RawVal
  precoAlcool : RawVal
  precoDiesel : RawVal
  precoGnv : RawVal
  dataColeta : Option String
  fonte : Option String
  fontes : Option (List String)
deriving DecidableEq, Repr, Inhabited

/-- The merge sort key `p.get('data_coleta', '')`. -/
def dataChave (p : RawPosto) : String := p.dataColeta.getD ""

/-- Stable descending sort by `data_coleta`
(`sorted(postos, key=..., reverse=True)`; CPython's sort is stable, and
with `reverse=True` equal keys keep their original relative order). -/
def ordenarPorDataDesc (postos : List RawPosto) : List RawPosto :=
  List.insertionSort (fun a b => pyStrLe (dataChave b) (dataChave a)) postos

/-- Write one price field of a raw record. -/
def escreverCampo (campo : Fin 4) (v : RawVal) (p : RawPosto) : RawPosto :=
  match campo with
  | 0 => { p with precoGasolina := v }
  | 1 => { p with precoAlcool := v }
  | 2 => { p with precoDiesel := v }
  | 3 => { p with precoGnv := v }

/-- Read one price field of a raw record (the `campos` loop order
`['preco_gasolina', 'preco_alcool', 'preco_diesel', 'preco_gnv']`). -/
def lerCampo (campo : Fin 4) (p : RawPosto) : RawVal :=
  match campo with
  | 0 => p.precoGasolina
  | 1 => p.precoAlcool
  | 2 => p.precoDiesel
  | 3 => p.precoGnv

/-- One iteration of the field-merge loop: if the base's value is
unavailable, take the first available value found scanning the remaining
(older) records in order. -/
def preencherCampo (campo : Fin 4) (resto : List RawPosto) (base : RawPosto) : RawPosto :=
  if indisponivel (lerCampo campo base) then
    match resto.find? (fun p => !indisponivel (lerCampo campo p)) with
    | some p => escreverCampo campo (lerCampo campo p) base
    | none => base
  else base

/-- The deduplicated source list `list(set(p.get('fonte', '') for p in postos))`:
a Python set of the members' sources.  Set iteration order is unspecified;
it is embedded as first-occurrence order, and every theorem below uses
only membership in this list. -/
def fontesDe (postos : List RawPosto) : List String :=
  (postos.map (fun p => p.fonte.getD "")).dedup

/-- `scraper_multiplas_fontes.mesclar_postos_similares`: `None` for an
empty group, a singleton group's member unchanged, and otherwise the most
recent record (stable descending sort by `data_coleta`) with each
unavailable price field filled from the first available value among the
older records, and `fontes` set to the set of all members' sources. -/
def mesclar_postos_similares (postos : List RawPosto) : Option RawPosto :=
  match postos with
  | [] => none
  | [p] => some p
  | _ =>
    let ordenados := ordenarPorDataDesc postos
    let base := ordenados.headI
    let base := [(0 : Fin 4), 1, 2, 3].foldl
      (fun b campo => preencherCampo campo ordenados.tail b) base
    some { base with fontes := some (fontesDe postos) }

/-- Pairwise similarity inside one cell:
`abs(lat1-lat2) <= distancia_maxima and abs(lon1-lon2) <= distancia_maxima`. -/
def similares (distancia_maxima : ℚ) (p q : RawPosto) : Bool :=
  decide (|p.latitude - q.latitude| ≤ distancia_maxima) &&
  decide (|p.longitude - q.longitude| ≤ distancia_maxima)

/-- The seed sweep of `deduplicar_por_proximidade` inside one cell, on the
enumerated record list: each unprocessed record in index order seeds a
group consisting of itself and every later unprocessed record similar *to
the seed*; all of them are marked processed. -/
def gruposCelulaAux (distancia_maxima : ℚ) :
    List (ℕ × RawPosto) → List ℕ → List (List RawPosto)
  | [], _ => []
  | (i, p) :: resto, processados =>
    if i ∈ processados then gruposCelulaAux distancia_maxima resto processados
    else
      let parecidos := resto.filter
        (fun jq => !(processados.contains jq.1) && similares distancia_maxima p jq.2)
      (p :: parecidos.map Prod.snd) ::
        gruposCelulaAux distancia_maxima resto
          (processados ++ i :: parecidos.map Prod.fst)

/-- The merge groups formed inside one grid cell. -/
def gruposCelula (distancia_maxima : ℚ) (postos_celula : List RawPosto) :
    List (List RawPosto) :=
  gruposCelulaAux distancia_maxima postos_celula.enum []

/-- `scraper_multiplas_fontes.deduplicar_por_proximidade`: bucket records
into 0.1° grid cells (skipping `(0,0)` records), emit singleton cells
unchanged, and merge each similarity group of every larger cell. -/
def deduplicar_por_proximidade (postos : List RawPosto) (distancia_maxima : ℚ) :
    List RawPosto :=
  let tamanho_celula : ℚ := mkRat 1 10
  let grid := postos.foldl
    (fun g p =>
      if p.latitude == 0 && p.longitude == 0 then g
      else gridAppend g
        (pyInt (p.latitude / tamanho_celula), pyInt (p.longitude / tamanho_celula)) p)
    []
  grid.flatMap (fun celula =>
    if celula.2.length = 1 then celula.2
    else (gruposCelula distancia_maxima celula.2).filterMap mesclar_postos_similares)

/-! ## Snapshot build (`otimizador_dados.otimizar_json`) and test fixtures -/

/-- Python dict insert with overwrite: an existing key keeps its position
and gets the new value; a new key is appended. -/
def dictInsert {α : Type} (m : List (String × α)) (k : String) (v : α) :
    List (String × α) :=
  if (m.lookup k).isSome then
    m.map (fun kv => if kv.1 = k then (kv.1, v) else kv)
  else m ++ [(k, v)]

/-- The `if key not in d: d[key] = []` / `append` pattern on string keys. -/
def chaveAppend (m : List (String × List String)) (k : String) (v : String) :
    List (String × List String) :=
  if (m.lookup k).isSome then
    m.map (fun kv => if kv.1 = k then (kv.1, kv.2 ++ [v]) else kv)
  else m ++ [(k, [v])]

/-- `otimizador_dados.otimizar_json`: the id → record dict and the
state/city/brand id-bucket dicts, all in insertion order. -/
def otimizar_json (postos : List Posto) : Dados :=
  { postos := postos
    postosPorId := postos.foldl (fun m p => dictInsert m p.id p) []
    postosPorEstado := postos.foldl (fun m p => chaveAppend m p.estado p.id) []
    postosPorCidade := postos.foldl (fun m p => chaveAppend m p.cidade p.id) []
    postosPorBandeira := postos.foldl (fun m p => chaveAppend m p.bandeira p.id) [] }

/-- Fixture record with given id/coordinates, all prices `null`. -/
def postoEm (pid : String) (lat lon : ℚ) : Posto :=
  { id := pid, nome := pid, endereco := "", bairro := "", cidade := "",
    estado := "", bandeira := "", latitude := lat, longitude := lon,
    precoGasolina := .nulo, precoAlcool := .nulo, precoDiesel := .nulo,
    precoGnv := .nulo, distancia := none }

/-- Fixture record with a given gasoline price, at the origin-adjacent
coordinate `(1, 1)` (non-zero so the validator keeps it). -/
def postoComGas (pid : String) (v : Preco) : Posto :=
  { postoEm pid 1 1 with precoGasolina := v }

/-- The three-record scenario snapshot of the spec:
records at `(0,0)`, `(0,0.01)`, `(10,10)`. -/
def postosCenario : List Posto :=
  [postoEm "p1" 0 0, postoEm "p2" 0 (mkRat 1 100), postoEm "p3" 10 10]

def dadosCenario : Dados := otimizar_json postosCenario

def rtreeCenario : RtreeIndex := criar_rtree_index postosCenario

/-- Raw-record fixture: all prices `None`, with a collection date and
source. -/
def rawEm (nome : String) (lat lon : ℚ) (data fonte : String) : RawPosto :=
  { nome := nome, latitude := lat, longitude := lon,
    precoGasolina := .pynone, precoAlcool := .pynone, precoDiesel := .pynone,
    precoGnv := .pynone, dataColeta := some data, fonte := some fonte,
    fontes := none }

/-- Chain fixture: `A ~ B` and `B ~ C` at threshold `0.05`, but
`A ≁ C`; all in grid cell `(0, 0)`. -/
def rawA : RawPosto := rawEm "A" (mkRat 1 1000) (mkRat 1 1000) "2024-01-03" "anp"

def rawB : RawPosto := rawEm "B" (mkRat 51 1000) (mkRat 1 1000) "2024-01-02" "oglobo"

def rawC : RawPosto := rawEm "C" (mkRat 99 1000) (mkRat 1 1000) "2024-01-01" "web"

/-- Merge-pair fixture: the more recent record, gasoline price missing. -/
def rawM1 : RawPosto := rawEm "M1" (mkRat 1 100) (mkRat 1 100) "2024-01-02" "anp"

/-- Merge-pair fixture: the older record, with a gasoline price. -/
def rawM2 : RawPosto :=
  { rawEm "M2" (mkRat 2 100) (mkRat 1 100) "2024-01-01" "oglobo" with
    precoGasolina := .pynum (mkRat 549 100) }

/-- Record with negative latitude whose cell quotient is non-integral. -/
def postoNeg : Posto := postoEm "n1" (mkRat (-15) 100) (mkRat 5 100)

/-- Single-record snapshot with state/city/brand values for the
attribute-filter fixtures. -/
def postoSP : Posto :=
  { postoEm "s1" 1 1 with estado := "SP", cidade := "Campinas", bandeira := "Shell" }

def dadosSP : Dados := otimizar_json [postoSP]

/-- The `[4.50, 5.00, 5.50, unavailable]` gasoline-price scenario. -/
def postosPreco : List Posto :=
  [postoComGas "g1" (.disponivel (mkRat 45 10)), postoComGas "g2" (.disponivel 5),
   postoComGas "g3" (.disponivel (mkRat 55 10)), postoComGas "g4" .nulo]

def dadosPreco : Dados := otimizar_json postosPreco

/-- Filter dict with only a max gasoline price. -/
def filtroSoGas (m : ℚ) : Filtros :=
  { estado := none, cidade := none, bandeira := none,
    precoMaxGasolina := some m, precoMaxAlcool := none, precoMaxDiesel := none,
    ordenarPor := none }

/-- Filter dict with only `ordenar_por=preco_gasolina` (the route's
default sort). -/
def filtroOrdenarGas : Filtros :=
  { estado := none, cidade := none, bandeira := none,
    precoMaxGasolina := none, precoMaxAlcool := none, precoMaxDiesel := none,
    ordenarPor := some "preco_gasolina" }

/-- Filter dict with only a state equality filter. -/
def filtroEstado (s : String) : Filtros :=
  { estado := some s, cidade := none, bandeira := none,
    precoMaxGasolina := none, precoMaxAlcool := none, precoMaxDiesel := none,
    ordenarPor := none }

/-- Filter dict with only a city equality filter. -/
def filtroCidade (c : String) : Filtros :=
  { estado := none, cidade := some c, bandeira := none,
    precoMaxGasolina := none, precoMaxAlcool := none, precoMaxDiesel := none,
    ordenarPor := none }

/-- Filter dict with only a brand equality filter. -/
def filtroBandeira (b : String) : Filtros :=
  { estado := none, cidade := none, bandeira := some b,
    precoMaxGasolina := none, precoMaxAlcool := none, precoMaxDiesel := none,
    ordenarPor := none }

/-- Truncation fixture: the farther in-radius record comes first in index
order. -/
def postosTrunc : List Posto :=
  [postoEm "pf" 0 (mkRat 3 100), postoEm "pn" 0 (mkRat 1 1000)]

def dadosTrunc : Dados := otimizar_json postosTrunc

def rtreeTrunc : RtreeIndex := criar_rtree_index postosTrunc

/-- A record stripped of its `distancia` key: two records are "the same
snapshot record" when they agree under `semDistancia` (the proximity
queries only ever write `distancia`). -/
def semDistancia (p : Posto) : Posto := { p with distancia := none }

/-- The effect of one candidate id on the *result list* of the R-tree
query, phrased against the pre-query snapshot: the record under the id,
distance-stamped, if it lies within the exact radius. -/
def coletaPura (dist : DistFn) (lat lon raio_km : ℚ) (dados : Dados)
    (pid : String) : Option Posto :=
  match dados.postosPorId.lookup pid with
  | none => none
  | some posto =>
    let d := dist lat lon posto.latitude posto.longitude
    if d ≤ raio_km then some { posto with distancia := some (round2 d) } else none

/-- The candidate ids produced by the R-tree bounding-box probe, in index
order. -/
def candidatosRtree (cosDeg : ℚ → ℚ) (entries : RtreeIndex) (lat lon raio_km : ℚ) :
    List String :=
  let raio_lat := raio_km / 111
  let raio_lon := raio_km / (111 * cosDeg lat)
  let bbox := (lon - raio_lon, lat - raio_lat, lon + raio_lon, lat + raio_lat)
  (entries.filter (fun e => inBbox bbox e.1 e.2.1)).map (fun e => e.2.2)

/-- The field policy of the spec, §4.4 step 5, phrased on the
recency-ordered group: take the base's value if available, else the first
available value among the older members. -/
def preenchimentoSpec (campo : Fin 4) (ordenados : List RawPosto) : RawVal :=
  let base := ordenados.headI
  if indisponivel (lerCampo campo base) then
    (((ordenados.tail.map (lerCampo campo)).find? (fun v => !indisponivel v)).getD
      (lerCampo campo base))
  else lerCampo campo base

/-! ## Claim theorems -/

/-- C1: the claim says no query mutates the snapshot's records.  The code
contradicts it (and its own concurrency design): the R-tree radius query
writes `posto['distancia']` on the record held in the snapshot's
`postos_por_id` map, so after the query the snapshot differs and the
record `p1` has gained a `distancia` field.  Evaluation of the embedded
query at the failing input. -/
theorem consulta_rtree_muta_snapshot :
    (buscar_postos_proximidade_rtree distTaxi cosDegOne dadosCenario
      (some rtreeCenario) 0 0 5 10).2 ≠ dadosCenario ∧
    (dadosCenario.postosPorId.lookup "p1").map Posto.distancia = some none ∧
    (((buscar_postos_proximidade_rtree distTaxi cosDegOne dadosCenario
      (some rtreeCenario) 0 0 5 10).2).postosPorId.lookup "p1").map Posto.distancia =
      some (some 0) := by decide

/-- C2 counterexample: with records `pf` (farther, first in index order)
and `pn` (strictly nearer), both inside the bounding box and the 5 km
radius, a radius query with `limit = 1` returns `pf` only: the candidate
list is truncated to the limit *before* the exact-distance filter and
sort, so the claim's "the `limit` nearest, ascending" fails. -/
theorem rtree_trunca_antes_de_ordenar :
    (buscar_postos_proximidade_rtree distTaxi cosDegOne dadosTrunc
      (some rtreeTrunc) 0 0 5 1).1.map Posto.id = ["pf"] ∧
    distTaxi 0 0 0 (mkRat 1 1000) < distTaxi 0 0 0 (mkRat 3 100) ∧
    distTaxi 0 0 0 (mkRat 3 100) ≤ 5 ∧
    "pn" ∈ dadosTrunc.postos.map Posto.id := by decide

/-- C3 counterexample: `A ~ B` and `B ~ C` at threshold `0.05°` but
`A ≁ C`, all in one cell; the sweep merges only `{A, B}` and emits `C`
alone, so the record `C`, transitively reachable from the seed `A`
through `B`, does **not** end up in `A`'s merge group. -/
theorem corrente_de_similares_nao_mesclada :
    similares (mkRat 1 20) rawA rawB = true ∧
    similares (mkRat 1 20) rawB rawC = true ∧
    similares (mkRat 1 20) rawA rawC = false ∧
    deduplicar_por_proximidade [rawA, rawB, rawC] (mkRat 1 20) =
      [{ rawA with fontes := some ["anp", "oglobo"] }, rawC] := by decide

/-- C4 counterexample: the record at latitude `-0.15` is assigned the cell
key `(-1, 0)` by the build (`int(-1.5) = -1`), while
`floor(-0.15 / 0.1) = -2`; the half-open range of cell `-1` is
`[-0.1, 0)`, which does not contain `-0.15`. -/
theorem grid_chave_negativa_nao_floor :
    (criar_grid_index [postoNeg] (mkRat 1 10)).grid = [((-1, 0), ["n1"])] ∧
    ratFloor (postoNeg.latitude / mkRat 1 10) = -2 ∧
    ¬ (mkRat (-1) 10 ≤ postoNeg.latitude) := by decide

/-- C5: the claim says sorting by a price field never fails on a record
with an unavailable price.  After `validar_dados` an unavailable price is
a *present* key with value `None`, so the sort key `float(x.get(campo,
999999))` evaluates `float(None)` and raises `TypeError`: the embedded
query returns `none` (exception) on a snapshot containing a null-priced
record.  The second conjunct shows the intended sentinel *does* work for
the absent-key case: record `g5` (key absent) sorts last. -/
theorem ordenar_por_preco_nulo_lanca :
    buscar_postos_filtros
      (otimizar_json [postoComGas "g1" (.disponivel 5), postoComGas "g2" .nulo])
      filtroOrdenarGas 100 = none ∧
    (buscar_postos_filtros
      (otimizar_json [postoComGas "g5" .ausente, postoComGas "g1" (.disponivel 5)])
      filtroOrdenarGas 100).map (fun r => r.1.map Posto.id) = some ["g1", "g5"] := by decide

/-- C6 counterexample: a batch of `N = 2` points where the second point
has no `lat` yields a result map with a single entry keyed `0`: the point
with the missing coordinate is dropped from the map entirely instead of
contributing an empty list under its own index. -/
theorem lote_omite_ponto_sem_coordenada :
    (buscar_postos_lote distTaxi cosDegOne dadosCenario (some rtreeCenario)
      [(some 0, some 0), (none, some 1)] 5 20).map Prod.fst = [0] ∧
    ([((some 0 : Option ℚ), (some 0 : Option ℚ)), (none, some 1)].length = 2) ∧
    (buscar_postos_lote distTaxi cosDegOne dadosCenario (some rtreeCenario)
      [(some 0, some 0), (none, some 1)] 5 20).lookup 1 = none := by decide

/-- C7 counterexample: a singleton merge group is returned unchanged, so
its `merged_sources` (`fontes`) field stays absent rather than holding the
union `{anp}` of the members' sources. -/
theorem mesclar_singleton_sem_fontes :
    mesclar_postos_similares [rawM1] = some rawM1 ∧
    rawM1.fontes = none ∧
    fontesDe [rawM1] = ["anp"] := by decide

/-- C9 counterexample: the route only caps from above
(`min(raio, 50)`, `min(limite, 100)`): a requested radius of `-1` stays
`-1` (not raised to `0`) and a requested limit of `0` stays `0` (not
raised to `1`). -/
theorem clamp_sem_limite_inferior :
    api_postos_proximos_clamp (-1) 0 = (-1, 0) ∧
    ((-1 : ℚ) < 0) ∧ ((0 : ℤ) < 1) := by decide

/-- C9 amended: the effective parameters are exactly `min(raio, 50)` and
`min(limite, 100)`: never above the caps, the identity below them (in
particular negative radii and non-positive limits pass through
unchanged). -/
theorem clamp_somente_superior (raio : ℚ) (limite : ℤ) :
    (api_postos_proximos_clamp raio limite).1 ≤ 50 ∧
    (api_postos_proximos_clamp raio limite).2 ≤ 100 ∧
    (raio ≤ 50 → (api_postos_proximos_clamp raio limite).1 = raio) ∧
    (limite ≤ 100 → (api_postos_proximos_clamp raio limite).2 = limite) ∧
    (50 ≤ raio → (api_postos_proximos_clamp raio limite).1 = 50) ∧
    (100 ≤ limite → (api_postos_proximos_clamp raio limite).2 = 100) := by
  refine ⟨min_le_right _ _, min_le_right _ _, ?_, ?_, ?_, ?_⟩
  · exact fun h => min_eq_left h
  · exact fun h => min_eq_left h
  · exact fun h => min_eq_right h
  · exact fun h => min_eq_right h

/-- Witness for C9's amended theorem at the counterexample input. -/
theorem clamp_somente_superior_aplicado :
    (api_postos_proximos_clamp (-1) 0).1 = -1 ∧
    (api_postos_proximos_clamp (-1) 0).2 = 0 :=
  ⟨(clamp_somente_superior (-1) 0).2.2.1 (by decide),
   (clamp_somente_superior (-1) 0).2.2.2.1 (by decide)⟩

/-- The batch result dict is fully characterized by index arithmetic: keys
below the running start index are absent, and key `n + i` answers for
input position `i`. -/
theorem buscar_postos_lote_aux_lookup (dist : DistFn) (cosDeg : ℚ → ℚ)
    (dados : Dados) (rt : Option RtreeIndex) (raio : ℚ) (lim : ℕ)
    (pontos : List (Option ℚ × Option ℚ)) :
    ∀ (n k : ℕ),
    (buscar_postos_lote_aux dist cosDeg dados rt raio lim n pontos).lookup k =
      if k < n then none
      else
        match pontos.get? (k - n) with
        | some (some la, some lo) =>
          some ((buscar_postos_proximidade_rtree dist cosDeg dados rt la lo raio lim).1)
        | _ => none := by
  induction pontos with
  | nil =>
    intro n k
    simp only [buscar_postos_lote_aux, List.lookup_nil, List.get?_nil]
    split <;> rfl
  | cons po resto ih =>
    intro n k
    obtain ⟨a, b⟩ := po
    by_cases hk : k = n
    · subst hk
      rcases a with _ | la <;> rcases b with _ | lo <;>
        simp [buscar_postos_lote_aux, List.lookup, ih (k + 1) k, Nat.sub_self]
    · have hbeq : (k == n) = false := by simp [hk]
      by_cases h1 : k < n
      · have h2 : k < n + 1 := by omega
        rcases a with _ | la <;> rcases b with _ | lo <;>
          simp [buscar_postos_lote_aux, List.lookup, hbeq, ih (n + 1) k, h1, h2]
      · have h2 : ¬ k < n + 1 := by omega
        have h3 : k - n = (k - (n + 1)) + 1 := by omega
        rcases a with _ | la <;> rcases b with _ | lo <;>
          simp [buscar_postos_lote_aux, List.lookup, hbeq, ih (n + 1) k, h1, h2, h3]

/-- C6 amended: the batch result is keyed exactly by the indices of the
input points that have both coordinates present, each entry equal to the
standalone R-tree radius query at that point; a point with a missing
coordinate has no entry at all. -/
theorem lote_chaves_exatamente_pontos_completos (dist : DistFn) (cosDeg : ℚ → ℚ)
    (dados : Dados) (rt : Option RtreeIndex)
    (pontos : List (Option ℚ × Option ℚ)) (raio : ℚ) (lim k : ℕ) :
    (buscar_postos_lote dist cosDeg dados rt pontos raio lim).lookup k =
      match pontos.get? k with
      | some (some la, some lo) =>
        some ((buscar_postos_proximidade_rtree dist cosDeg dados rt la lo raio lim).1)
      | _ => none := by
  have h := buscar_postos_lote_aux_lookup dist cosDeg dados rt raio lim pontos 0 k
  simpa [buscar_postos_lote] using h

/-- C8: an attribute query whose only filter is a max gasoline price
returns exactly the snapshot records whose gasoline price is present,
non-null and `≤` the maximum (inclusive), in snapshot order, truncated to
the limit; records with an unavailable price are excluded.  The last
conjunct is the `[4.50, 5.00, 5.50, unavailable]` / `max 5.00` scenario. -/
theorem filtro_preco_max_gasolina :
    (∀ (dados : Dados) (m : ℚ) (lim : ℕ),
      buscar_postos_filtros dados (filtroSoGas m) lim =
        some ((dados.postos.filter (fun p => precoAteMax p.precoGasolina m)).take lim,
          dados)) ∧
    (∀ m v, precoAteMax (Preco.disponivel v) m = decide (v ≤ m)) ∧
    (∀ m, precoAteMax Preco.nulo m = false) ∧
    (∀ m, precoAteMax Preco.ausente m = false) ∧
    ((buscar_postos_filtros dadosPreco (filtroSoGas 5) 100).map
      (fun r => r.1.map Posto.id) = some ["g1", "g2"]) := by
  refine ⟨fun dados m lim => rfl, fun m v => rfl, fun m => rfl, fun m => rfl, by decide⟩

/-- C10: the state filter acts through `pyUpper` of its argument (so two
spellings with the same upper-casing — e.g. `sp` and `SP` — give
identical results, proved in general), while the city and brand filters
look their argument up verbatim in the corresponding map (case-sensitive
exact equality, exhibited on a snapshot where only the exact spelling
matches). -/
theorem filtro_estado_caixa_alta_cidade_exata :
    (∀ (dados : Dados) (s1 s2 : String) (lim : ℕ),
      s1 ≠ "" → s2 ≠ "" → pyUpper s1 = pyUpper s2 →
      buscar_postos_filtros dados (filtroEstado s1) lim =
        buscar_postos_filtros dados (filtroEstado s2) lim) ∧
    (∀ (dados : Dados) (c : String) (lim : ℕ), c ≠ "" →
      buscar_postos_filtros dados (filtroCidade c) lim =
        some ((dados.postos.filter (fun p =>
          ((dados.postosPorCidade.lookup c).getD []).contains p.id)).take lim, dados)) ∧
    (∀ (dados : Dados) (b : String) (lim : ℕ), b ≠ "" →
      buscar_postos_filtros dados (filtroBandeira b) lim =
        some ((dados.postos.filter (fun p =>
          ((dados.postosPorBandeira.lookup b).getD []).contains p.id)).take lim, dados)) ∧
    ((buscar_postos_filtros dadosSP (filtroEstado "sp") 100).map
        (fun r => r.1.map Posto.id) = some ["s1"] ∧
     (buscar_postos_filtros dadosSP (filtroEstado "SP") 100).map
        (fun r => r.1.map Posto.id) = some ["s1"] ∧
     (buscar_postos_filtros dadosSP (filtroCidade "campinas") 100).map
        (fun r => r.1.map Posto.id) = some [] ∧
     (buscar_postos_filtros dadosSP (filtroCidade "Campinas") 100).map
        (fun r => r.1.map Posto.id) = some ["s1"] ∧
     (buscar_postos_filtros dadosSP (filtroBandeira "shell") 100).map
        (fun r => r.1.map Posto.id) = some [] ∧
     (buscar_postos_filtros dadosSP (filtroBandeira "Shell") 100).map
        (fun r => r.1.map Posto.id) = some ["s1"]) := by
  refine ⟨?_, ?_, ?_, by decide⟩
  · intro dados s1 s2 lim h1 h2 h12
    have b1 : (s1 != "") = true := by simpa using h1
    have b2 : (s2 != "") = true := by simpa using h2
    simp only [buscar_postos_filtros, filtroEstado, truthy, Option.getD, b1, b2, h12]
  · intro dados c lim h
    have b1 : (c != "") = true := by simpa using h
    simp only [buscar_postos_filtros, filtroCidade, truthy, Option.getD, b1]
    rfl
  · intro dados b lim h
    have b1 : (b != "") = true := by simpa using h
    simp only [buscar_postos_filtros, filtroBandeira, truthy, Option.getD, b1]
    rfl

/-- Witness for C10: the general state-filter theorem applied to the
concrete snapshot and the spellings `sp` / `SP`. -/
theorem filtro_estado_caixa_alta_aplicado :
    buscar_postos_filtros dadosSP (filtroEstado "sp") 100 =
      buscar_postos_filtros dadosSP (filtroEstado "SP") 100 :=
  filtro_estado_caixa_alta_cidade_exata.1 dadosSP "sp" "SP" 100
    (by decide) (by decide) (by decide)

/-- Appending to a cell's bucket: the bucket under the written key gains
the value at its end. -/
theorem lookup_gridAppend_same {α : Type} (g : List ((ℤ × ℤ) × List α))
    (k : ℤ × ℤ) (v : α) :
    (gridAppend g k v).lookup k = some ((g.lookup k).getD [] ++ [v]) := by
  induction g with
  | nil => simp [gridAppend, List.lookup]
  | cons kv g ih =>
    obtain ⟨k', l⟩ := kv
    by_cases hk : k = k'
    · subst hk
      simp [gridAppend, List.lookup]
    · have hb : (k == k') = false := by simp [hk]
      by_cases hs : (g.lookup k).isSome
      · have : ((gridAppend g k v).lookup k) = some ((g.lookup k).getD [] ++ [v]) := ih
        simp only [gridAppend, List.lookup, hb, List.lookup_cons] at this ⊢
        simp only [List.map_cons, if_neg (Ne.symm hk), List.lookup, hb, hs, if_true,
          cond_false] at this ⊢
        simpa [List.lookup, hb, hs, Ne.symm hk] using this
      · have : ((gridAppend g k v).lookup k) = some ((g.lookup k).getD [] ++ [v]) := ih
        simp only [gridAppend, List.lookup, hb, hs] at this ⊢
        simpa [List.lookup, hb, hs, Ne.symm hk] using this

/-- Rewriting the bucket of key `k` in place does not change lookups of
any other key. -/
theorem lookup_map_bucket {α : Type} (k k' : ℤ × ℤ) (v : α) (h : k' ≠ k) :
    ∀ g : List ((ℤ × ℤ) × List α),
    (List.map (fun kv => if kv.1 = k then (kv.1, kv.2 ++ [v]) else kv) g).lookup k' =
      g.lookup k' := by
  intro g
  induction g with
  | nil => rfl
  | cons kv g ih =>
    obtain ⟨a, l⟩ := kv
    by_cases ha : a = k
    · subst ha
      have hb : (k' == a) = false := by simp [h]
      simp only [List.map_cons, if_pos rfl]
      simp [List.lookup, hb, ih]
    · have hif : ((a, l).1 = k) = False := by simp [ha]
      simp only [List.map_cons, eq_iff_iff.mpr hif.to_iff, if_false]
      by_cases ha' : k' = a
      · subst ha'
        simp [List.lookup]
      · have hb : (k' == a) = false := by simp [ha']
        simp [List.lookup, hb, ih]

/-- Appending a fresh key at the end of the dict does not change lookups
of any other key. -/
theorem lookup_append_single {α : Type} (k k' : ℤ × ℤ) (x : List α) (h : k' ≠ k) :
    ∀ g : List ((ℤ × ℤ) × List α),
    (g ++ [(k, x)]).lookup k' = g.lookup k' := by
  intro g
  induction g with
  | nil => simp [List.lookup, show (k' == k) = false by simp [h]]
  | cons kv g ih =>
    obtain ⟨a, l⟩ := kv
    by_cases ha : k' = a
    · subst ha
      simp [List.lookup]
    · simp [List.lookup, show (k' == a) = false by simp [ha], ih]

/-- Appending to a cell's bucket leaves every other key's bucket
unchanged. -/
theorem lookup_gridAppend_other {α : Type} (g : List ((ℤ × ℤ) × List α))
    (k k' : ℤ × ℤ) (v : α) (h : k' ≠ k) :
    (gridAppend g k v).lookup k' = g.lookup k' := by
  unfold gridAppend
  by_cases hs : (g.lookup k).isSome
  · simp only [hs, if_true]
    exact lookup_map_bucket k k' v h g
  · simp only [hs, if_false]
    exact lookup_append_single k k' [v] h g

/-- Bucket membership is preserved by every later append, and the
appended value lands in its own key's bucket: each record put into the
grid stays in the cell of its truncated key for the rest of the build. -/
theorem mem_foldl_gridAppend (cs : ℚ) :
    ∀ (postos : List Posto) (g : List ((ℤ × ℤ) × List String)),
      (∀ (x : String) (k : ℤ × ℤ), x ∈ ((g.lookup k).getD []) →
        x ∈ (((postos.foldl (fun g' p =>
          gridAppend g' (pyInt (p.latitude / cs), pyInt (p.longitude / cs)) p.id) g)).lookup k).getD []) ∧
      (∀ p ∈ postos,
        p.id ∈ (((postos.foldl (fun g' p' =>
          gridAppend g' (pyInt (p'.latitude / cs), pyInt (p'.longitude / cs)) p'.id) g)).lookup
            (pyInt (p.latitude / cs), pyInt (p.longitude / cs))).getD []) := by
  intro postos
  induction postos with
  | nil => exact fun g => ⟨fun x k hx => hx, fun p hp => absurd hp (List.not_mem_nil p)⟩
  | cons q postos ih =>
    intro g
    constructor
    · intro x k hx
      refine (ih _).1 x k ?_
      by_cases hk : k = (pyInt (q.latitude / cs), pyInt (q.longitude / cs))
      · subst hk
        rw [lookup_gridAppend_same]
        simp only [Option.getD_some]
        exact List.mem_append_left _ hx
      · rw [lookup_gridAppend_other _ _ _ _ hk]
        exact hx
    · intro p hp
      rcases List.mem_cons.mp hp with hpq | hp'
      · subst hpq
        refine (ih _).1 p.id _ ?_
        rw [lookup_gridAppend_same]
        simp
      · exact (ih _).2 p hp'

/-- C4 amended: the grid build assigns every record's id to the bucket of
the *truncated* key `(int(lat/cellSize), int(lon/cellSize))`; truncation
agrees with `floor` exactly on non-negative quotients, and in general is
either the floor or the ceiling of the quotient. -/
theorem grid_atribui_celula_truncada :
    (∀ (postos : List Posto) (cs : ℚ) (p : Posto), p ∈ postos →
      p.id ∈ (((criar_grid_index postos cs).grid.lookup
        (pyInt (p.latitude / cs), pyInt (p.longitude / cs))).getD [])) ∧
    (∀ q : ℚ, 0 ≤ q → pyInt q = ratFloor q) ∧
    (∀ q : ℚ, pyInt q = ratFloor q ∨ pyInt q = ratCeil q) := by
  refine ⟨?_, ?_, ?_⟩
  · intro postos cs p hp
    exact (mem_foldl_gridAppend cs postos []).2 p hp
  · intro q hq
    have hnum : 0 ≤ q.num := Rat.num_nonneg.mpr hq
    have hden : (0 : ℤ) ≤ (q.den : ℤ) := Int.ofNat_nonneg q.den
    unfold pyInt ratFloor
    rw [Int.tdiv_eq_ediv hnum hden, Int.fdiv_eq_ediv _ hden]
  · intro q
    by_cases hq : 0 ≤ q
    · left
      have hnum : 0 ≤ q.num := Rat.num_nonneg.mpr hq
      have hden : (0 : ℤ) ≤ (q.den : ℤ) := Int.ofNat_nonneg q.den
      unfold pyInt ratFloor
      rw [Int.tdiv_eq_ediv hnum hden, Int.fdiv_eq_ediv _ hden]
    · right
      have hnum : 0 ≤ -q.num := by
        have : q.num ≤ 0 := le_of_lt (Rat.num_neg.mpr (lt_of_not_ge hq))
        omega
      have hden : (0 : ℤ) ≤ (q.den : ℤ) := Int.ofNat_nonneg q.den
      unfold pyInt ratCeil ratFloor
      rw [Rat.neg_num, Rat.neg_den]
      rw [Int.fdiv_eq_ediv _ hden, ← Int.tdiv_eq_ediv hnum hden]
      rw [Int.neg_tdiv, neg_neg]

/-- Witness for C4's amended theorem: the build membership at the
negative-latitude record, and truncation = floor at a non-negative
quotient. -/
theorem grid_atribui_celula_truncada_aplicado :
    "n1" ∈ (((criar_grid_index [postoNeg] (mkRat 1 10)).grid.lookup
      (pyInt (postoNeg.latitude / mkRat 1 10),
       pyInt (postoNeg.longitude / mkRat 1 10))).getD []) ∧
    pyInt (mkRat 3 2) = ratFloor (mkRat 3 2) :=
  ⟨grid_atribui_celula_truncada.1 [postoNeg] (mkRat 1 10) postoNeg (by decide),
   grid_atribui_celula_truncada.2.1 (mkRat 3 2) (by decide)⟩

/-- Every non-seed member of a sweep group was admitted by the filter
`similares` against the seed itself. -/
theorem gruposCelulaAux_semente (thr : ℚ) :
    ∀ (pares : List (ℕ × RawPosto)) (proc : List ℕ) (g : List RawPosto),
      g ∈ gruposCelulaAux thr pares proc →
      ∀ q ∈ g.tail, similares thr g.headI q = true := by
  intro pares
  induction pares with
  | nil => intro proc g hg; simp [gruposCelulaAux] at hg
  | cons ip resto ih =>
    intro proc g hg
    obtain ⟨i, p⟩ := ip
    by_cases hip : i ∈ proc
    · rw [gruposCelulaAux, if_pos hip] at hg
      exact ih _ _ hg
    · rw [gruposCelulaAux, if_neg hip] at hg
      rcases List.mem_cons.mp hg with hhead | hrest
      · subst hhead
        intro q hq
        simp only [List.tail_cons, List.headI] at hq ⊢
        rcases List.mem_map.mp hq with ⟨jq, hjq, rfl⟩
        have := List.of_mem_filter hjq
        exact (Bool.and_eq_true _ _ |>.mp this).2
      · exact ih _ _ hrest

/-- C3 amended: a merge group is a one-level star around its seed — every
member of a group other than the seed is *directly* similar to the seed
(per-axis threshold against the seed's own coordinates); chains are not
followed, as the concrete `A ~ B ~ C` cell shows: the groups formed are
`[[A, B], [C]]`. -/
theorem grupo_similar_apenas_a_semente :
    (∀ (thr : ℚ) (postos_celula : List RawPosto) (g : List RawPosto),
      g ∈ gruposCelula thr postos_celula →
      ∀ q ∈ g.tail, similares thr g.headI q = true) ∧
    gruposCelula (mkRat 1 20) [rawA, rawB, rawC] = [[rawA, rawB], [rawC]] := by
  refine ⟨?_, by decide⟩
  intro thr ps g hg
  exact gruposCelulaAux_semente thr ps.enum [] g hg

/-- Witness for C3's amended theorem: in the chain cell, the member `B`
of the group seeded at `A` is directly similar to `A`. -/
theorem grupo_similar_apenas_a_semente_aplicado :
    similares (mkRat 1 20) ([rawA, rawB].headI) rawB = true :=
  grupo_similar_apenas_a_semente.1 (mkRat 1 20) [rawA, rawB, rawC] [rawA, rawB]
    (by decide) rawB (by decide)

/-- Python string `<=` is reflexive. -/
theorem strLeAux_refl : ∀ l : List Char, strLeAux l l = true := by
  intro l
  induction l with
  | nil => rfl
  | cons a l ih => simp [strLeAux, lt_irrefl, ih]

/-- Python string `<=` is total. -/
theorem strLeAux_total : ∀ as bs : List Char, strLeAux as bs = true ∨ strLeAux bs as = true := by
  intro as
  induction as with
  | nil => intro bs; left; rfl
  | cons a as ih =>
    intro bs
    cases bs with
    | nil => right; rfl
    | cons b bs =>
      rcases lt_trichotomy a b with h | h | h
      · left; simp [strLeAux, h]
      · subst h
        simpa [strLeAux, lt_irrefl] using ih bs
      · right; simp [strLeAux, h]

/-- Python string `<=` is transitive. -/
theorem strLeAux_trans :
    ∀ as bs cs : List Char,
      strLeAux as bs = true → strLeAux bs cs = true → strLeAux as cs = true := by
  intro as
  induction as with
  | nil => intro bs cs _ _; rfl
  | cons a as ih =>
    intro bs cs h1 h2
    cases bs with
    | nil => simp [strLeAux] at h1
    | cons b bs =>
      cases cs with
      | nil => simp [strLeAux] at h2
      | cons c cs =>
        rcases lt_trichotomy a b with hab | hab | hab
        · rcases lt_trichotomy b c with hbc | hbc | hbc
          · simp [strLeAux, lt_trans hab hbc]
          · subst hbc; simp [strLeAux, hab]
          · simp [strLeAux, hbc, asymm hbc] at h2
        · subst hab
          rcases lt_trichotomy a c with hac | hac | hac
          · simp [strLeAux, hac]
          · subst hac
            simp only [strLeAux, lt_irrefl, if_false] at h1 h2 ⊢
            exact ih bs cs h1 h2
          · simp [strLeAux, hac, asymm hac] at h2
        · simp [strLeAux, hab, asymm hab] at h1

/-- `pyStrLe` reflexivity, totality and transitivity, in `String` form. -/
theorem pyStrLe_refl (s : String) : pyStrLe s s = true := strLeAux_refl s.data

theorem pyStrLe_total (s t : String) : pyStrLe s t = true ∨ pyStrLe t s = true :=
  strLeAux_total s.data t.data

theorem pyStrLe_trans {s t u : String} (h1 : pyStrLe s t = true)
    (h2 : pyStrLe t u = true) : pyStrLe s u = true :=
  strLeAux_trans s.data t.data u.data h1 h2

/-- Writing one price field touches no identity field. -/
theorem escreverCampo_identidade (c : Fin 4) (v : RawVal) (p : RawPosto) :
    (escreverCampo c v p).nome = p.nome ∧
    (escreverCampo c v p).latitude = p.latitude ∧
    (escreverCampo c v p).longitude = p.longitude ∧
    (escreverCampo c v p).dataColeta = p.dataColeta ∧
    (escreverCampo c v p).fonte = p.fonte ∧
    (escreverCampo c v p).fontes = p.fontes := by
  fin_cases c <;> exact ⟨rfl, rfl, rfl, rfl, rfl, rfl⟩

/-- Reading a field after a write: only the written field changed. -/
theorem lerCampo_escreverCampo (c c' : Fin 4) (v : RawVal) (p : RawPosto) :
    lerCampo c (escreverCampo c' v p) = if c = c' then v else lerCampo c p := by
  fin_cases c <;> fin_cases c' <;> simp [lerCampo, escreverCampo]

/-- The field-merge step touches no identity field. -/
theorem preencherCampo_identidade (c : Fin 4) (resto : List RawPosto) (p : RawPosto) :
    (preencherCampo c resto p).nome = p.nome ∧
    (preencherCampo c resto p).latitude = p.latitude ∧
    (preencherCampo c resto p).longitude = p.longitude ∧
    (preencherCampo c resto p).dataColeta = p.dataColeta ∧
    (preencherCampo c resto p).fonte = p.fonte ∧
    (preencherCampo c resto p).fontes = p.fontes := by
  unfold preencherCampo
  split
  · split
    · exact escreverCampo_identidade c _ p
    · exact ⟨rfl, rfl, rfl, rfl, rfl, rfl⟩
  · exact ⟨rfl, rfl, rfl, rfl, rfl, rfl⟩

/-- The field-merge step leaves the other price fields unchanged. -/
theorem preencherCampo_outros (c c' : Fin 4) (resto : List RawPosto) (p : RawPosto)
    (h : c ≠ c') :
    lerCampo c (preencherCampo c' resto p) = lerCampo c p := by
  unfold preencherCampo
  split
  · split
    · rw [lerCampo_escreverCampo]; simp [h]
    · rfl
  · rfl

/-- The field-merge step computes exactly the spec's field policy on its
own field: keep an available base value, else the first available value
among the older records. -/
theorem preencherCampo_mesmo (c : Fin 4) (resto : List RawPosto) (p : RawPosto) :
    lerCampo c (preencherCampo c resto p) =
      if indisponivel (lerCampo c p) then
        (((resto.map (lerCampo c)).find? (fun v => !indisponivel v)).getD (lerCampo c p))
      else lerCampo c p := by
  unfold preencherCampo
  by_cases h : indisponivel (lerCampo c p) = true
  · rw [if_pos h, if_pos h]
    rw [List.find?_map]
    cases hf : resto.find? ((fun v => !indisponivel v) ∘ (lerCampo c)) with
    | none =>
      have : resto.find? (fun q => !indisponivel (lerCampo c q)) = none := hf
      rw [this]
      simp
    | some q =>
      have : resto.find? (fun q => !indisponivel (lerCampo c q)) = some q := hf
      rw [this]
      simp [lerCampo_escreverCampo]
  · rw [if_neg h, if_neg h]

/-- Setting `fontes` does not change any price field. -/
theorem lerCampo_fontes_update (c : Fin 4) (p : RawPosto) (x : Option (List String)) :
    lerCampo c { p with fontes := x } = lerCampo c p := by
  fin_cases c <;> rfl

/-- The four-field merge loop touches no identity field. -/
theorem foldl_preencher_identidade (resto : List RawPosto) (b : RawPosto) :
    (([(0 : Fin 4), 1, 2, 3].foldl (fun x campo => preencherCampo campo resto x) b)).nome = b.nome ∧
    (([(0 : Fin 4), 1, 2, 3].foldl (fun x campo => preencherCampo campo resto x) b)).latitude = b.latitude ∧
    (([(0 : Fin 4), 1, 2, 3].foldl (fun x campo => preencherCampo campo resto x) b)).longitude = b.longitude ∧
    (([(0 : Fin 4), 1, 2, 3].foldl (fun x campo => preencherCampo campo resto x) b)).dataColeta = b.dataColeta ∧
    (([(0 : Fin 4), 1, 2, 3].foldl (fun x campo => preencherCampo campo resto x) b)).fonte = b.fonte := by
  simp only [List.foldl]
  refine ⟨?_, ?_, ?_, ?_, ?_⟩
  · rw [(preencherCampo_identidade 3 resto _).1, (preencherCampo_identidade 2 resto _).1,
      (preencherCampo_identidade 1 resto _).1, (preencherCampo_identidade 0 resto b).1]
  · rw [(preencherCampo_identidade 3 resto _).2.1, (preencherCampo_identidade 2 resto _).2.1,
      (preencherCampo_identidade 1 resto _).2.1, (preencherCampo_identidade 0 resto b).2.1]
  · rw [(preencherCampo_identidade 3 resto _).2.2.1, (preencherCampo_identidade 2 resto _).2.2.1,
      (preencherCampo_identidade 1 resto _).2.2.1, (preencherCampo_identidade 0 resto b).2.2.1]
  · rw [(preencherCampo_identidade 3 resto _).2.2.2.1, (preencherCampo_identidade 2 resto _).2.2.2.1,
      (preencherCampo_identidade 1 resto _).2.2.2.1, (preencherCampo_identidade 0 resto b).2.2.2.1]
  · rw [(preencherCampo_identidade 3 resto _).2.2.2.2.1, (preencherCampo_identidade 2 resto _).2.2.2.2.1,
      (preencherCampo_identidade 1 resto _).2.2.2.2.1, (preencherCampo_identidade 0 resto b).2.2.2.2.1]

/-- The merge loop on field `0` (gasoline). -/
theorem lerCampo_foldl_zero (resto : List RawPosto) (b : RawPosto) :
    lerCampo 0 ([(0 : Fin 4), 1, 2, 3].foldl (fun x campo => preencherCampo campo resto x) b) =
      if indisponivel (lerCampo 0 b) then
        (((resto.map (lerCampo 0)).find? (fun v => !indisponivel v)).getD (lerCampo 0 b))
      else lerCampo 0 b := by
  simp only [List.foldl]
  rw [preencherCampo_outros 0 3 resto _ (by decide),
    preencherCampo_outros 0 2 resto _ (by decide),
    preencherCampo_outros 0 1 resto _ (by decide),
    preencherCampo_mesmo 0 resto b]

/-- The merge loop on field `1` (ethanol). -/
theorem lerCampo_foldl_um (resto : List RawPosto) (b : RawPosto) :
    lerCampo 1 ([(0 : Fin 4), 1, 2, 3].foldl (fun x campo => preencherCampo campo resto x) b) =
      if indisponivel (lerCampo 1 b) then
        (((resto.map (lerCampo 1)).find? (fun v => !indisponivel v)).getD (lerCampo 1 b))
      else lerCampo 1 b := by
  simp only [List.foldl]
  rw [preencherCampo_outros 1 3 resto _ (by decide),
    preencherCampo_outros 1 2 resto _ (by decide),
    preencherCampo_mesmo 1 resto _,
    preencherCampo_outros 1 0 resto b (by decide)]

/-- The merge loop on field `2` (diesel). -/
theorem lerCampo_foldl_dois (resto : List RawPosto) (b : RawPosto) :
    lerCampo 2 ([(0 : Fin 4), 1, 2, 3].foldl (fun x campo => preencherCampo campo resto x) b) =
      if indisponivel (lerCampo 2 b) then
        (((resto.map (lerCampo 2)).find? (fun v => !indisponivel v)).getD (lerCampo 2 b))
      else lerCampo 2 b := by
  simp only [List.foldl]
  rw [preencherCampo_outros 2 3 resto _ (by decide),
    preencherCampo_mesmo 2 resto _,
    preencherCampo_outros 2 1 resto _ (by decide),
    preencherCampo_outros 2 0 resto b (by decide)]

/-- The merge loop on field `3` (CNG). -/
theorem lerCampo_foldl_tres (resto : List RawPosto) (b : RawPosto) :
    lerCampo 3 ([(0 : Fin 4), 1, 2, 3].foldl (fun x campo => preencherCampo campo resto x) b) =
      if indisponivel (lerCampo 3 b) then
        (((resto.map (lerCampo 3)).find? (fun v => !indisponivel v)).getD (lerCampo 3 b))
      else lerCampo 3 b := by
  simp only [List.foldl]
  rw [preencherCampo_mesmo 3 resto _,
    preencherCampo_outros 3 2 resto _ (by decide),
    preencherCampo_outros 3 1 resto _ (by decide),
    preencherCampo_outros 3 0 resto b (by decide)]

/-- The four-field merge loop implements the spec's field policy on every
price field. -/
theorem lerCampo_foldl_preencher (resto : List RawPosto) (b : RawPosto) (c : Fin 4) :
    lerCampo c ([(0 : Fin 4), 1, 2, 3].foldl (fun x campo => preencherCampo campo resto x) b) =
      if indisponivel (lerCampo c b) then
        (((resto.map (lerCampo c)).find? (fun v => !indisponivel v)).getD (lerCampo c b))
      else lerCampo c b := by
  fin_cases c
  · exact lerCampo_foldl_zero resto b
  · exact lerCampo_foldl_um resto b
  · exact lerCampo_foldl_dois resto b
  · exact lerCampo_foldl_tres resto b

/-- Shape of the merge on a group of two or more records. -/
theorem mesclar_cons_cons (a b : RawPosto) (rest : List RawPosto) :
    mesclar_postos_similares (a :: b :: rest) =
      some { ([(0 : Fin 4), 1, 2, 3].foldl
          (fun x campo => preencherCampo campo (ordenarPorDataDesc (a :: b :: rest)).tail x)
          ((ordenarPorDataDesc (a :: b :: rest)).headI)) with
        fontes := some (fontesDe (a :: b :: rest)) } := rfl

/-- C7 amended: on a group of two or more members the merge returns the
most recent member (stable descending sort on `collected_at`) with every
identity field intact, `fontes` set to the set of all members' sources,
and every price field given by the spec's recency fill policy.  The last
conjunct is the two-record scenario: one output whose `fontes` contains
both original sources. -/
theorem mesclar_grupo_multiplo :
    (∀ ps : List RawPosto, 2 ≤ ps.length →
      ∃ m, mesclar_postos_similares ps = some m ∧
        m.fontes = some (fontesDe ps) ∧
        (∀ p ∈ ps, p.fonte.getD "" ∈ fontesDe ps) ∧
        (∀ p ∈ ps, pyStrLe (dataChave p) (dataChave ((ordenarPorDataDesc ps).headI)) = true) ∧
        m.nome = ((ordenarPorDataDesc ps).headI).nome ∧
        m.latitude = ((ordenarPorDataDesc ps).headI).latitude ∧
        m.longitude = ((ordenarPorDataDesc ps).headI).longitude ∧
        m.dataColeta = ((ordenarPorDataDesc ps).headI).dataColeta ∧
        m.fonte = ((ordenarPorDataDesc ps).headI).fonte ∧
        (∀ campo : Fin 4, lerCampo campo m = preenchimentoSpec campo (ordenarPorDataDesc ps))) ∧
    (mesclar_postos_similares [rawM1, rawM2] =
      some { rawM1 with
             precoGasolina := RawVal.pynum (mkRat 549 100)
             fontes := some ["anp", "oglobo"] }) := by
  constructor
  · intro ps hlen
    match ps, hlen with
    | a :: b :: rest, _ =>
      haveI htot : IsTotal RawPosto (fun x y => pyStrLe (dataChave y) (dataChave x) = true) :=
        ⟨fun x y => pyStrLe_total (dataChave y) (dataChave x)⟩
      haveI htrans : IsTrans RawPosto (fun x y => pyStrLe (dataChave y) (dataChave x) = true) :=
        ⟨fun _ _ _ h1 h2 => pyStrLe_trans h2 h1⟩
      refine ⟨_, mesclar_cons_cons a b rest, rfl, ?_, ?_, ?_, ?_, ?_, ?_, ?_, ?_⟩
      · intro p hp
        exact List.mem_dedup.mpr (List.mem_map_of_mem (fun q => q.fonte.getD "") hp)
      · intro p hp
        have hsorted : List.Sorted (fun x y => pyStrLe (dataChave y) (dataChave x) = true)
            (ordenarPorDataDesc (a :: b :: rest)) :=
          List.sorted_insertionSort _ _
        have hperm : List.Perm (ordenarPorDataDesc (a :: b :: rest)) (a :: b :: rest) :=
          List.perm_insertionSort _ _
        have hmem : p ∈ ordenarPorDataDesc (a :: b :: rest) := hperm.mem_iff.mpr hp
        rcases hord : ordenarPorDataDesc (a :: b :: rest) with _ | ⟨h0, t0⟩
        · rw [hord] at hmem
          exact absurd hmem (List.not_mem_nil p)
        · rw [hord] at hmem hsorted
          simp only [List.headI]
          rcases List.mem_cons.mp hmem with rfl | hpt
          · exact pyStrLe_refl _
          · exact List.rel_of_sorted_cons hsorted p hpt
      · exact (foldl_preencher_identidade _ _).1
      · exact (foldl_preencher_identidade _ _).2.1
      · exact (foldl_preencher_identidade _ _).2.2.1
      · exact (foldl_preencher_identidade _ _).2.2.2.1
      · exact (foldl_preencher_identidade _ _).2.2.2.2
      · intro campo
        have h := lerCampo_foldl_preencher ((ordenarPorDataDesc (a :: b :: rest)).tail)
          ((ordenarPorDataDesc (a :: b :: rest)).headI) campo
        rw [lerCampo_fontes_update]
        rw [h]
        rfl
  · decide

/-- Witness for C7's amended theorem: the two-record group, merged, has
`fontes` equal to the set of both members' sources. -/
theorem mesclar_grupo_multiplo_aplicado :
    (mesclar_postos_similares [rawM1, rawM2]).map RawPosto.fontes =
      some (some (fontesDe [rawM1, rawM2])) := by
  obtain ⟨m, hm, hf, -⟩ := mesclar_grupo_multiplo.1 [rawM1, rawM2] (by decide)
  rw [hm]
  simp [hf]

/-- Replacing the record stored under `pid` is visible under `pid`. -/
theorem lookup_atualizarPorId_same (m : List (String × Posto)) (pid : String)
    (novo : Posto) (h : (m.lookup pid).isSome) :
    (atualizarPorId m pid novo).lookup pid = some novo := by
  induction m with
  | nil => simp [List.lookup] at h
  | cons kv m ih =>
    obtain ⟨a, l⟩ := kv
    by_cases ha : a = pid
    · subst ha
      simp only [atualizarPorId, List.map_cons, if_pos rfl]
      simp [List.lookup]
    · have hif : ((a, l).1 = pid) = False := by simp [ha]
      simp only [atualizarPorId, List.map_cons, eq_iff_iff.mpr hif.to_iff, if_false]
      have hb : (pid == a) = false := by simp [Ne.symm ha]
      have h' : (m.lookup pid).isSome := by simpa [List.lookup, hb] using h
      have hm := ih h'
      simp only [atualizarPorId] at hm
      simp [List.lookup, hb, hm]

/-- Replacing the record stored under `pid` changes no other key. -/
theorem lookup_atualizarPorId_other (m : List (String × Posto)) (pid k : String)
    (novo : Posto) (h : k ≠ pid) :
    (atualizarPorId m pid novo).lookup k = m.lookup k := by
  induction m with
  | nil => rfl
  | cons kv m ih =>
    obtain ⟨a, l⟩ := kv
    have hm := ih
    simp only [atualizarPorId] at hm ⊢
    by_cases ha : a = pid
    · subst ha
      simp only [List.map_cons, if_pos rfl]
      have hb : (k == a) = false := by simp [h]
      simp [List.lookup, hb, hm]
    · have hif : ((a, l).1 = pid) = False := by simp [ha]
      simp only [List.map_cons, eq_iff_iff.mpr hif.to_iff, if_false]
      by_cases hk : k = a
      · subst hk
        simp [List.lookup]
      · have hb : (k == a) = false := by simp [hk]
        simp [List.lookup, hb, hm]

/-- Two records equal up to `distancia` agree on coordinates and on any
`distancia` overwrite. -/
theorem semDistancia_eq_campos {p q : Posto} (h : semDistancia p = semDistancia q) :
    p.latitude = q.latitude ∧ p.longitude = q.longitude ∧
    ∀ v : Option ℚ, { p with distancia := v } = { q with distancia := v } := by
  have hlat := congrArg Posto.latitude h
  have hlon := congrArg Posto.longitude h
  refine ⟨hlat, hlon, fun v => ?_⟩
  have h1 : { p with distancia := v } = { semDistancia p with distancia := v } := rfl
  rw [h1, h]
  rfl

/-- The candidate loop of the R-tree query, run from any snapshot that
agrees with `d0` up to `distancia` stamps, collects exactly the
`coletaPura`-filtered candidates (computed against `d0`) and leaves the
snapshot still agreeing with `d0` up to `distancia` stamps. -/
theorem coletar_foldl_spec (dist : DistFn) (lat lon raio : ℚ) :
    ∀ (ids : List String) (d0 dE : Dados) (acc : List Posto),
    (∀ k, (dE.postosPorId.lookup k).map semDistancia =
        (d0.postosPorId.lookup k).map semDistancia) →
    ((ids.foldl (coletarCandidato dist lat lon raio) (dE, acc)).2
        = acc ++ ids.filterMap (coletaPura dist lat lon raio d0)) ∧
    (∀ k, (((ids.foldl (coletarCandidato dist lat lon raio) (dE, acc)).1).postosPorId.lookup k).map
        semDistancia = (d0.postosPorId.lookup k).map semDistancia) := by
  intro ids
  induction ids with
  | nil => intro d0 dE acc hinv; exact ⟨by simp, hinv⟩
  | cons id ids ih =>
    intro d0 dE acc hinv
    simp only [List.foldl]
    cases hE : dE.postosPorId.lookup id with
    | none =>
      have h0 : d0.postosPorId.lookup id = none := by
        have := hinv id
        rw [hE] at this
        simpa using this.symm
      have hstep : coletarCandidato dist lat lon raio (dE, acc) id = (dE, acc) := by
        simp [coletarCandidato, hE]
      have hpure : coletaPura dist lat lon raio d0 id = none := by
        simp [coletaPura, h0]
      rw [hstep, List.filterMap_cons, hpure]
      exact ih d0 dE acc hinv
    | some posto =>
      obtain ⟨q, hq, hsd⟩ : ∃ q, d0.postosPorId.lookup id = some q ∧
          semDistancia posto = semDistancia q := by
        have := hinv id
        rw [hE] at this
        cases h0 : d0.postosPorId.lookup id with
        | none => rw [h0] at this; simp at this
        | some q =>
          rw [h0] at this
          simp only [Option.map_some'] at this
          exact ⟨q, rfl, Option.some.inj this⟩
      obtain ⟨hlat, hlon, hupd⟩ := semDistancia_eq_campos hsd
      by_cases hd : dist lat lon posto.latitude posto.longitude ≤ raio
      · have hstep : coletarCandidato dist lat lon raio (dE, acc) id = ({ dE with postosPorId := atualizarPorId dE.postosPorId id { posto with distancia := some (round2 (dist lat lon posto.latitude posto.longitude)) } }, acc ++ [{ posto with distancia := some (round2 (dist lat lon posto.latitude posto.longitude)) }]) := by
          simp [coletarCandidato, hE, hd]
        have hpure : coletaPura dist lat lon raio d0 id = some { q with distancia := some (round2 (dist lat lon q.latitude q.longitude)) } := by
          simp [coletaPura, hq]
          rw [← hlat, ← hlon]
          simp [hd]
        have hinv' : ∀ k, ((atualizarPorId dE.postosPorId id { posto with distancia := some (round2 (dist lat lon posto.latitude posto.longitude)) }).lookup k).map semDistancia = (d0.postosPorId.lookup k).map semDistancia := by
          intro k
          by_cases hk : k = id
          · subst hk
            rw [lookup_atualizarPorId_same _ _ _ (by simp [hE]), hq]
            simp only [Option.map_some']
            exact congrArg some hsd
          · rw [lookup_atualizarPorId_other _ _ _ _ hk]
            exact hinv k
        rw [hstep, List.filterMap_cons, hpure]
        have hres := ih d0 { dE with postosPorId := atualizarPorId dE.postosPorId id { posto with distancia := some (round2 (dist lat lon posto.latitude posto.longitude)) } } (acc ++ [{ posto with distancia := some (round2 (dist lat lon posto.latitude posto.longitude)) }]) hinv'
        refine ⟨?_, hres.2⟩
        rw [hres.1, List.append_assoc]
        have hv : round2 (dist lat lon posto.latitude posto.longitude) =
            round2 (dist lat lon q.latitude q.longitude) := by rw [hlat, hlon]
        have hpq : ({ posto with distancia := some (round2 (dist lat lon posto.latitude posto.longitude)) } : Posto) = { q with distancia := some (round2 (dist lat lon q.latitude q.longitude)) } :=
          (hupd (some (round2 (dist lat lon posto.latitude posto.longitude)))).trans (by rw [hv])
        rw [hpq]
        rfl
      · have hstep : coletarCandidato dist lat lon raio (dE, acc) id = (dE, acc) := by
          simp [coletarCandidato, hE, hd]
        have hpure : coletaPura dist lat lon raio d0 id = none := by
          simp only [coletaPura, hq]
          rw [← hlat, ← hlon]
          simp [hd]
        rw [hstep, List.filterMap_cons, hpure]
        exact ih d0 dE acc hinv

/-- C2 amended: the R-tree radius query equals — results read off the
*pre-query* snapshot — the stable ascending sort by rounded distance of
the within-radius records among the first `limite` bounding-box
candidates in index order; consequently every returned record is within
the exact radius and carries its rounded distance, the result is sorted
ascending by the rounded distance, and its length is bounded by the
limit.  The 3-record scenario of the claim holds as stated. -/
theorem rtree_resultado_ordenado_e_cenario :
    (∀ (dist : DistFn) (cosDeg : ℚ → ℚ) (dados : Dados) (entries : RtreeIndex)
        (lat lon raio : ℚ) (limite : ℕ),
      (buscar_postos_proximidade_rtree dist cosDeg dados (some entries) lat lon raio limite).1 =
        sortPorDistancia (((candidatosRtree cosDeg entries lat lon raio).take limite).filterMap
          (coletaPura dist lat lon raio dados))) ∧
    (∀ (dist : DistFn) (cosDeg : ℚ → ℚ) (dados : Dados) (entries : RtreeIndex)
        (lat lon raio : ℚ) (limite : ℕ) (p : Posto),
      p ∈ (buscar_postos_proximidade_rtree dist cosDeg dados (some entries) lat lon raio limite).1 →
        dist lat lon p.latitude p.longitude ≤ raio ∧
        p.distancia = some (round2 (dist lat lon p.latitude p.longitude))) ∧
    (∀ (dist : DistFn) (cosDeg : ℚ → ℚ) (dados : Dados) (entries : RtreeIndex)
        (lat lon raio : ℚ) (limite : ℕ),
      List.Pairwise (fun a b => distanciaKey a ≤ distanciaKey b)
        (buscar_postos_proximidade_rtree dist cosDeg dados (some entries) lat lon raio limite).1) ∧
    (∀ (dist : DistFn) (cosDeg : ℚ → ℚ) (dados : Dados) (entries : RtreeIndex)
        (lat lon raio : ℚ) (limite : ℕ),
      (buscar_postos_proximidade_rtree dist cosDeg dados (some entries) lat lon raio limite).1.length ≤
        limite) ∧
    ((buscar_postos_proximidade_rtree distTaxi cosDegOne dadosCenario (some rtreeCenario)
        0 0 5 10).1.map Posto.id = ["p1", "p2"]) := by
  have key : ∀ (dist : DistFn) (cosDeg : ℚ → ℚ) (dados : Dados) (entries : RtreeIndex)
      (lat lon raio : ℚ) (limite : ℕ),
      (buscar_postos_proximidade_rtree dist cosDeg dados (some entries) lat lon raio limite).1 =
        sortPorDistancia (((candidatosRtree cosDeg entries lat lon raio).take limite).filterMap
          (coletaPura dist lat lon raio dados)) := by
    intro dist cosDeg dados entries lat lon raio limite
    have h := (coletar_foldl_spec dist lat lon raio
      (((candidatosRtree cosDeg entries lat lon raio).take limite)) dados dados []
      (fun _ => rfl)).1
    simp only [candidatosRtree] at h
    simp only [buscar_postos_proximidade_rtree, candidatosRtree]
    rw [h, List.nil_append]
  haveI htot : IsTotal Posto (fun a b => distanciaKey a ≤ distanciaKey b) :=
    ⟨fun a b => le_total _ _⟩
  haveI htrans : IsTrans Posto (fun a b => distanciaKey a ≤ distanciaKey b) :=
    ⟨fun _ _ _ => le_trans⟩
  refine ⟨key, ?_, ?_, ?_, by decide⟩
  · intro dist cosDeg dados entries lat lon raio limite p hp
    rw [key] at hp
    have hp2 : p ∈ ((candidatosRtree cosDeg entries lat lon raio).take limite).filterMap
        (coletaPura dist lat lon raio dados) :=
      (List.perm_insertionSort _ _).mem_iff.mp hp
    obtain ⟨pid, -, hcp⟩ := List.mem_filterMap.mp hp2
    simp only [coletaPura] at hcp
    cases hlook : List.lookup pid dados.postosPorId with
    | none => rw [hlook] at hcp; simp at hcp
    | some posto =>
      rw [hlook] at hcp
      simp only at hcp
      by_cases hd : dist lat lon posto.latitude posto.longitude ≤ raio
      · rw [if_pos hd] at hcp
        obtain rfl := (Option.some.inj hcp)
        exact ⟨hd, rfl⟩
      · rw [if_neg hd] at hcp
        exact absurd hcp (by simp)
  · intro dist cosDeg dados entries lat lon raio limite
    rw [key]
    exact List.sorted_insertionSort _ _
  · intro dist cosDeg dados entries lat lon raio limite
    rw [key]
    calc (sortPorDistancia (((candidatosRtree cosDeg entries lat lon raio).take limite).filterMap
            (coletaPura dist lat lon raio dados))).length
        = (((candidatosRtree cosDeg entries lat lon raio).take limite).filterMap
            (coletaPura dist lat lon raio dados)).length :=
          (List.perm_insertionSort _ _).length_eq
      _ ≤ ((candidatosRtree cosDeg entries lat lon raio).take limite).length :=
          List.length_filterMap_le _ _
      _ ≤ limite := List.length_take_le _ _

/-- Witness for C2's amended theorem: the within-radius and
distance-stamp facts extracted at the head record of the concrete
scenario query. -/
theorem rtree_resultado_ordenado_e_cenario_aplicado :
    distTaxi 0 0 (postoEm "p1" 0 0).latitude (postoEm "p1" 0 0).longitude ≤ 5 :=
  (rtree_resultado_ordenado_e_cenario.2.1 distTaxi cosDegOne dadosCenario rtreeCenario
    0 0 5 10 { postoEm "p1" 0 0 with distancia := some 0 } (by decide)).1
